import Mathlib

/-!
Verification of the battery-aware load scheduler in `src/app.py` against its
natural-language specification.  All energy quantities are embedded as
rationals (`ℚ`); Python's binary floats are modelled by exact rational
arithmetic, which matches the source expressions term for term.
-/

namespace SolarOpt

/-- One forecast row: a timestamp (hours, as a rational) and the derived
instantaneous production `Power_kW` (source line 150 / column `Power_kW`). -/
structure Sample where
  time : ℚ
  power : ℚ
deriving DecidableEq

/-- Result of one Energy Ledger step: the battery energy after the step and
the grid energy that would have been needed (`grid_drawn`). -/
structure StepResult where
  energy : ℚ
  gridDrawn : ℚ
deriving DecidableEq

/-- Source `battery_capacity_kwh` (app.py lines 165-166). -/
def battery_capacity_kwh (ah voltage : ℚ) : ℚ := ah * voltage / 1000

/-- Source `ah_from_kwh` (app.py lines 168-169). -/
def ah_from_kwh (kwh voltage : ℚ) : ℚ := kwh * 1000 / voltage

/-- One step of the Energy Ledger, translated from the outer simulation loop of
`find_next_run_with_loads` (app.py lines 258-278).  If production covers the
load, the surplus is stored through the charger efficiency, capped at the
remaining capacity; otherwise the deficit is demanded from the battery through
the inverter efficiency, capped at what is available above the reserve floor,
and the shortfall is reported as `gridDrawn`. -/
def ledgerStep (capacity reserveFloor chargerEff inverterEff : ℚ)
    (energy produced consumed : ℚ) : StepResult :=
  if consumed ≤ produced then
    let surplus := produced - consumed
    let storeable := surplus * chargerEff
    let remainingCap := max 0 (capacity - energy)
    let stored := min storeable remainingCap
    ⟨energy + stored, 0⟩
  else
    let deficit := consumed - produced
    let required := deficit / inverterEff
    let available := max 0 (energy - reserveFloor)
    let discharged := min required available
    ⟨energy - discharged, required - discharged⟩

/-- The Energy Ledger step exactly as the specification words it (spec §4.2):
`stored = min(storeable, capacity − energy)` with no clamp of the remaining
capacity at zero.  Written from the spec for comparison with `ledgerStep`. -/
def specEnergyLedgerStep (capacity reserveFloor chargerEff inverterEff : ℚ)
    (energy produced consumed : ℚ) : StepResult :=
  if consumed ≤ produced then
    ⟨energy + min ((produced - consumed) * chargerEff) (capacity - energy), 0⟩
  else
    let required := (consumed - produced) / inverterEff
    let discharged := min required (max 0 (energy - reserveFloor))
    ⟨energy - discharged, required - discharged⟩

/-- Source line 150: `df_view["Power_kW"] = (df_view["Solar Yield (W/m²)"] / 1000.0) * system_size_kw`. -/
def powerProfile (irradiances : List ℚ) (systemSizeKw : ℚ) : List ℚ :=
  irradiances.map (fun g => g / 1000 * systemSizeKw)

/-- The power-profile derivation exactly as the specification words it
(spec §3, PowerProfile): a separate `system_efficiency` coefficient multiplies
the panel-peak term.  Written from the spec for comparison with `powerProfile`. -/
def specPowerProfile (irradiances : List ℚ) (panelPeakKw systemEfficiency : ℚ) : List ℚ :=
  irradiances.map (fun g => g / 1000 * panelPeakKw * systemEfficiency)

/-- Return record of `recommend_battery` (app.py lines 189-195). -/
structure SizingRec where
  required_from_battery_kwh : ℚ
  recommended_kwh_total : ℚ
  recommended_ah : ℚ
  usable_fraction : ℚ
  total_load_kw : ℚ
deriving DecidableEq

/-- Source `recommend_battery` (app.py lines 172-195), including the silent
`max(0.01, 1.0 - reserve_soc)` clamp of the usable fraction. -/
def recommend_battery (baseloadKw extraKw durationH inverterEff voltage reserveSoc safetyMargin : ℚ) :
    SizingRec :=
  let totalLoadKw := baseloadKw + extraKw
  let requiredOutKwh := totalLoadKw * durationH
  let requiredFromBatteryKwh := requiredOutKwh / inverterEff * (1 + safetyMargin)
  let usableFraction := max (1 / 100) (1 - reserveSoc)
  let recommendedKwhTotal := requiredFromBatteryKwh / usableFraction
  ⟨requiredFromBatteryKwh, recommendedKwhTotal, ah_from_kwh recommendedKwhTotal voltage,
    usableFraction, totalLoadKw⟩

/-- Sizing outputs exactly as the specification words them (spec §4.4,
`recommend_capacity`): `recommended_total = required / (1 − reserve_fraction)`
with no clamp.  Written from the spec for comparison with `recommend_battery`. -/
structure SpecSizing where
  required_from_battery_kwh : ℚ
  recommended_total_kwh : ℚ
  recommended_amp_hours : ℚ
deriving DecidableEq

/-- Sizing formula as the spec states it (spec §4.4). -/
def specRecommendCapacity (baselineKw extraKw durationH inverterEff reserveFraction safetyMargin nominalVoltage : ℚ) :
    SpecSizing :=
  let required := (baselineKw + extraKw) * durationH / inverterEff * (1 + safetyMargin)
  let total := required / (1 - reserveFraction)
  ⟨required, total, total * 1000 / nominalVoltage⟩

/-- Source `avg_ghi = df_view["Solar Yield (W/m²)"].mean()` (app.py line 157). -/
def avg_ghi (ys : List ℚ) : ℚ := ys.sum / (ys.length : ℚ)

/-- Source `daily_solar_kwh = (avg_ghi / 1000) * system_size_kw * 5` (app.py line 158). -/
def daily_solar_kwh (ys : List ℚ) (systemSizeKw : ℚ) : ℚ :=
  avg_ghi ys / 1000 * systemSizeKw * 5

/-- Source `total_solar_kwh = daily_solar_kwh * 14` (app.py line 159). -/
def total_solar_kwh (ys : List ℚ) (systemSizeKw : ℚ) : ℚ :=
  daily_solar_kwh ys systemSizeKw * 14

/-- Source `used_kwh = system_size_kw * 6 * 14` (app.py line 160). -/
def used_kwh (systemSizeKw : ℚ) : ℚ := systemSizeKw * 6 * 14

/-- Source `saved_kwh = min(total_solar_kwh, used_kwh)` (app.py line 161). -/
def saved_kwh (ys : List ℚ) (systemSizeKw : ℚ) : ℚ :=
  min (total_solar_kwh ys systemSizeKw) (used_kwh systemSizeKw)

/-- Source `saved_r = saved_kwh * tariff_per_kwh` (app.py line 162). -/
def saved_r (ys : List ℚ) (systemSizeKw tariffPerKwh : ℚ) : ℚ :=
  saved_kwh ys systemSizeKw * tariffPerKwh

/-- Savings projector exactly as the specification words it (spec §4.5):
`daily = power × duration × tariff`, `weekly = daily × 7`,
`monthly = daily × 30`.  The repository has no such function; this is written
from the spec for comparison with `saved_r`. -/
def project_savings (powerKw durationH tariffPerKwh : ℚ) : ℚ × ℚ × ℚ :=
  let daily := powerKw * durationH * tariffPerKwh
  (daily, daily * 7, daily * 30)

/-- Parameter bundle for the simulation inside `find_next_run_with_loads`:
total battery capacity `batt_kwh`, reserve floor `usable_min_kwh`, the two
efficiencies, the household load, the geyser load spec and the
`allow_geyser_during_loadshedding` flag (app.py lines 198-227). -/
structure Config where
  capacity : ℚ
  reserve : ℚ
  inverterEff : ℚ
  chargerEff : ℚ
  householdKw : ℚ
  geyserKw : ℚ
  geyserH : ℚ
  allow : Bool
deriving DecidableEq

/-- Interval duration `delta_hours` for the current forecast row (app.py lines
241-250): the gap to the next row, clamped to 1 when non-positive; for the last
row, the gap from the previous row (again clamped), or 1 if there is none. -/
def outerDelta (prev : Option ℚ) (s : Sample) (rest : List Sample) : ℚ :=
  match rest with
  | s2 :: _ => if s2.time - s.time ≤ 0 then 1 else s2.time - s.time
  | [] =>
    match prev with
    | some pt => if s.time - pt ≤ 0 then 1 else s.time - pt
    | none => 1

/-- Outcome of the feasibility probe (the inner `while` loop of
`find_next_run_with_loads`, app.py lines 295-335): the `can_run` flag, the
final hypothetical battery level `batt_snapshot`, the geyser hours left
unsimulated when the loop stopped, and the list of executed sub-steps as
(production, consumption) pairs in kWh. -/
structure ProbeResult where
  canRun : Bool
  snapshot : ℚ
  hoursRemaining : ℚ
  steps : List (ℚ × ℚ)
deriving DecidableEq

/-- Sub-interval duration used by the probe (app.py lines 302-307): lookahead
gap clamped to 1 when non-positive, or the outer loop's `delta_hours` for the
last forecast row. -/
def probeStepHours (fallbackDelta : ℚ) (s : Sample) (rest : List Sample) : ℚ :=
  match rest with
  | [] => fallbackDelta
  | s2 :: _ => if s2.time - s.time ≤ 0 then 1 else s2.time - s.time

/-- The feasibility probe, translated from the inner `while` loop of
`find_next_run_with_loads` (app.py lines 295-335).  `fallbackDelta` is the
outer loop's `delta_hours`, used for the last forecast row.  A deficit either
leaves the snapshot at or above the reserve, or aborts the probe. -/
def probe (cfg : Config) (fallbackDelta : ℚ) :
    List Sample → ℚ → ℚ → ProbeResult
  | [], snapshot, hoursRemaining => ⟨true, snapshot, hoursRemaining, []⟩
  | s :: rest, snapshot, hoursRemaining =>
    if hoursRemaining ≤ 0 then ⟨true, snapshot, hoursRemaining, []⟩
    else
      let useHours := min (probeStepHours fallbackDelta s rest) hoursRemaining
      let prodJ := s.power * useHours
      let loadJ := cfg.householdKw * useHours
      let geyserOut := cfg.geyserKw * useHours
      let totalOut := loadJ + geyserOut
      if totalOut ≤ prodJ then
        let surplusAfter := prodJ - totalOut
        let storeable := surplusAfter * cfg.chargerEff
        let remainingCap := max 0 (cfg.capacity - snapshot)
        let stored := min storeable remainingCap
        let r := probe cfg fallbackDelta rest (snapshot + stored) (hoursRemaining - useHours)
        ⟨r.canRun, r.snapshot, r.hoursRemaining, (prodJ, totalOut) :: r.steps⟩
      else
        let deficit := totalOut - prodJ
        let required := deficit / cfg.inverterEff
        if snapshot - required < cfg.reserve then ⟨false, snapshot, hoursRemaining, []⟩
        else
          let r := probe cfg fallbackDelta rest (snapshot - required) (hoursRemaining - useHours)
          ⟨r.canRun, r.snapshot, r.hoursRemaining, (prodJ, totalOut) :: r.steps⟩

/-- The three shapes of `find_next_run_with_loads`'s return value
(app.py lines 231-232, 337-339, 344-345): no future forecast rows, an earliest
feasible start time together with `battery_kwh_at_start`, or exhaustion of the
horizon with the insufficient-energy reason. -/
inductive RunOutcome where
  | noFuture
  | found (startTime : ℚ) (batteryKwhAtStart : ℚ)
  | insufficient
deriving DecidableEq

/-- The outer forward scan of `find_next_run_with_loads` (app.py lines
239-345): at each row, apply one Energy Ledger step for the household load,
then (when the geyser is allowed during loadshedding) probe a hypothetical
geyser run starting here and return this row's timestamp on success. -/
def scanAux (cfg : Config) : Option ℚ → ℚ → List Sample → RunOutcome
  | _, _, [] => .insufficient
  | prev, battery, s :: rest =>
    let d := outerDelta prev s rest
    let st := ledgerStep cfg.capacity cfg.reserve cfg.chargerEff cfg.inverterEff
      battery (s.power * d) (cfg.householdKw * d)
    if cfg.allow then
      if (probe cfg d (s :: rest) st.energy cfg.geyserH).canRun then
        .found s.time st.energy
      else scanAux cfg (some s.time) st.energy rest
    else scanAux cfg (some s.time) st.energy rest

/-- Builds the simulation parameters exactly as the preamble of
`find_next_run_with_loads` does (app.py lines 217-227). -/
def mkConfig (battAh battV reserveSocFrac inverterEff chargerEff householdLoadKw geyserKw geyserH : ℚ)
    (allowGeyser : Bool) : Config :=
  ⟨battery_capacity_kwh battAh battV, battery_capacity_kwh battAh battV * reserveSocFrac,
    inverterEff, chargerEff, householdLoadKw, geyserKw, geyserH, allowGeyser⟩

/-- Restriction of the forecast to rows at or after `now_dt`
(app.py line 230: `future = forecast_df[forecast_df["Time"] >= now_dt]`). -/
def futureOf (forecast : List Sample) (nowDt : ℚ) : List Sample :=
  forecast.filter (fun s => decide (nowDt ≤ s.time))

/-- Source `find_next_run_with_loads` (app.py lines 198-345): restrict the
forecast to rows at or after `now_dt`, then run the forward scan from the
current battery energy. -/
def findNextRunWithLoads (forecast : List Sample)
    (nowDt battAh battV battSocFrac reserveSocFrac inverterEff chargerEff geyserKw geyserH householdLoadKw : ℚ)
    (allowGeyser : Bool) : RunOutcome :=
  match futureOf forecast nowDt with
  | [] => .noFuture
  | _ :: _ =>
    scanAux (mkConfig battAh battV reserveSocFrac inverterEff chargerEff householdLoadKw geyserKw geyserH allowGeyser)
      none (battery_capacity_kwh battAh battV * battSocFrac) (futureOf forecast nowDt)

/-- Re-simulation of a sequence of (production, consumption) sub-steps with the
Energy Ledger step, recording each sub-step next to its `StepResult`.  This is
the "simulate the returned schedule" operation of the reserve-respect property
(spec §8). -/
def resim (cfg : Config) : ℚ → List (ℚ × ℚ) → List ((ℚ × ℚ) × StepResult)
  | _, [] => []
  | e, pc :: rest =>
    let r := ledgerStep cfg.capacity cfg.reserve cfg.chargerEff cfg.inverterEff e pc.1 pc.2
    (pc, r) :: resim cfg r.energy rest

/-- Ledger energy after the outer scan has processed the first `n` forecast
rows (the candidate-independent simulation of spec §4.3 step 1), threading the
previous timestamp exactly as `scanAux` does. -/
def energyThrough (cfg : Config) : Option ℚ → ℚ → List Sample → ℕ → ℚ
  | _, battery, _, 0 => battery
  | _, battery, [], _ + 1 => battery
  | prev, battery, s :: rest, n + 1 =>
    let d := outerDelta prev s rest
    energyThrough cfg (some s.time)
      (ledgerStep cfg.capacity cfg.reserve cfg.chargerEff cfg.inverterEff
        battery (s.power * d) (cfg.householdKw * d)).energy rest n

/-- Outer `delta_hours` of the row at index `i`, expressed by random access
rather than by the sequential scan. -/
def deltaAtIdx (prev : Option ℚ) : List Sample → ℕ → ℚ
  | [], _ => 1
  | s :: rest, 0 => outerDelta prev s rest
  | s :: rest, i + 1 => deltaAtIdx (some s.time) rest i

/-- Whether the feasibility probe launched at candidate index `i` (snapshot =
ledger energy after the outer step at `i`, fallback delta = that row's
`delta_hours`) reports `can_run`. -/
def probeOKAt (cfg : Config) (prev : Option ℚ) (battery : ℚ) (l : List Sample) (i : ℕ) : Bool :=
  (probe cfg (deltaAtIdx prev l i) (l.drop i)
    (energyThrough cfg prev battery l (i + 1)) cfg.geyserH).canRun

/-- Ledger energy after the outer step for row `s` (the value the scan carries
into the probe launched at this row). -/
def outerStepEnergy (cfg : Config) (prev : Option ℚ) (battery : ℚ) (s : Sample)
    (rest : List Sample) : ℚ :=
  (ledgerStep cfg.capacity cfg.reserve cfg.chargerEff cfg.inverterEff battery
    (s.power * outerDelta prev s rest) (cfg.householdKw * outerDelta prev s rest)).energy

lemma scanAux_allow_false (cfg : Config) (h : cfg.allow = false) :
    ∀ (l : List Sample) (prev : Option ℚ) (battery : ℚ),
      scanAux cfg prev battery l = .insufficient := by
  intro l
  induction l with
  | nil => intro prev battery; rfl
  | cons s rest ih =>
    intro prev battery
    simp only [scanAux, h, Bool.false_eq_true, if_false]
    exact ih _ _

lemma ledgerStep_charge (cap res ch inv e p c : ℚ) (h : c ≤ p) :
    ledgerStep cap res ch inv e p c = ⟨e + min ((p - c) * ch) (max 0 (cap - e)), 0⟩ := by
  simp only [ledgerStep, if_pos h]

lemma ledgerStep_deficit_covered (cap res ch inv e p c : ℚ) (h : ¬ c ≤ p)
    (h2 : ¬ (e - (c - p) / inv < res)) :
    ledgerStep cap res ch inv e p c = ⟨e - (c - p) / inv, 0⟩ := by
  have hreq : (c - p) / inv ≤ max 0 (e - res) :=
    le_trans (by linarith [not_lt.mp h2]) (le_max_right _ _)
  simp only [ledgerStep, if_neg h, min_eq_left hreq, sub_self]

lemma probe_resim (cfg : Config) (fb : ℚ) :
    ∀ (l : List Sample) (snapshot hrs : ℚ) (pr : ProbeResult),
      probe cfg fb l snapshot hrs = pr → pr.canRun = true →
      ∀ x ∈ resim cfg snapshot pr.steps,
        x.2.gridDrawn = 0 ∧ (x.1.1 < x.1.2 → cfg.reserve ≤ x.2.energy) := by
  intro l
  induction l with
  | nil =>
    intro snapshot hrs pr hpr _ x hx
    simp only [probe] at hpr
    cases hpr
    simp [resim] at hx
  | cons s rest ih =>
    intro snapshot hrs pr hpr hcan x hx
    simp only [probe] at hpr
    split at hpr
    · cases hpr
      simp [resim] at hx
    · split at hpr
      · -- production covers household + geyser for this sub-interval
        rename_i hcharge
        cases hpr
        simp only [resim, List.mem_cons] at hx
        rcases hx with hx | hx
        · subst hx
          refine ⟨?_, ?_⟩
          · rw [ledgerStep_charge _ _ _ _ _ _ _ hcharge]
          · intro hlt
            exact absurd hcharge (not_le.mpr hlt)
        · rw [ledgerStep_charge _ _ _ _ _ _ _ hcharge] at hx
          exact ih _ _ _ rfl hcan x hx
      · split at hpr
        · cases hpr
          simp at hcan
        · -- deficit supplied entirely from the battery, staying at or above reserve
          rename_i hdef hok
          cases hpr
          simp only [resim, List.mem_cons] at hx
          rcases hx with hx | hx
          · subst hx
            refine ⟨?_, ?_⟩
            · rw [ledgerStep_deficit_covered _ _ _ _ _ _ _ hdef hok]
            · intro _
              rw [ledgerStep_deficit_covered _ _ _ _ _ _ _ hdef hok]
              exact not_lt.mp hok
          · rw [ledgerStep_deficit_covered _ _ _ _ _ _ _ hdef hok] at hx
            exact ih _ _ _ rfl hcan x hx

lemma energyThrough_zero (cfg : Config) (prev : Option ℚ) (battery : ℚ) (l : List Sample) :
    energyThrough cfg prev battery l 0 = battery := by
  simp only [energyThrough]

lemma energyThrough_cons_succ (cfg : Config) (prev : Option ℚ) (battery : ℚ) (s : Sample)
    (rest : List Sample) (n : ℕ) :
    energyThrough cfg prev battery (s :: rest) (n + 1) =
      energyThrough cfg (some s.time) (outerStepEnergy cfg prev battery s rest) rest n := by
  simp only [energyThrough, outerStepEnergy]

lemma energyThrough_one (cfg : Config) (prev : Option ℚ) (battery : ℚ) (s : Sample)
    (rest : List Sample) :
    energyThrough cfg prev battery (s :: rest) (0 + 1) =
      outerStepEnergy cfg prev battery s rest := by
  rw [energyThrough_cons_succ, energyThrough_zero]

lemma probeOKAt_zero (cfg : Config) (prev : Option ℚ) (battery : ℚ) (s : Sample)
    (rest : List Sample) :
    probeOKAt cfg prev battery (s :: rest) 0 =
      (probe cfg (outerDelta prev s rest) (s :: rest)
        (outerStepEnergy cfg prev battery s rest) cfg.geyserH).canRun := by
  simp only [probeOKAt, deltaAtIdx, List.drop_zero, energyThrough_one]

lemma probeOKAt_succ (cfg : Config) (prev : Option ℚ) (battery : ℚ) (s : Sample)
    (rest : List Sample) (k : ℕ) :
    probeOKAt cfg prev battery (s :: rest) (k + 1) =
      probeOKAt cfg (some s.time) (outerStepEnergy cfg prev battery s rest) rest k := by
  simp only [probeOKAt, deltaAtIdx, List.drop_succ_cons, energyThrough_cons_succ]

lemma scanAux_cons_allow (cfg : Config) (prev : Option ℚ) (battery : ℚ) (s : Sample)
    (rest : List Sample) (hallow : cfg.allow = true) :
    scanAux cfg prev battery (s :: rest) =
      if (probe cfg (outerDelta prev s rest) (s :: rest)
          (outerStepEnergy cfg prev battery s rest) cfg.geyserH).canRun then
        .found s.time (outerStepEnergy cfg prev battery s rest)
      else scanAux cfg (some s.time) (outerStepEnergy cfg prev battery s rest) rest := by
  simp only [scanAux, outerStepEnergy, hallow, if_true]

lemma scanAux_found_iff (cfg : Config) (t b : ℚ) :
    ∀ (l : List Sample) (prev : Option ℚ) (battery : ℚ),
      scanAux cfg prev battery l = .found t b ↔
        (cfg.allow = true ∧ ∃ i, ∃ hi : i < l.length,
          (∀ k, k < i → probeOKAt cfg prev battery l k = false) ∧
          probeOKAt cfg prev battery l i = true ∧
          t = (l.get ⟨i, hi⟩).time ∧ b = energyThrough cfg prev battery l (i + 1)) := by
  intro l
  induction l with
  | nil =>
    intro prev battery
    constructor
    · intro h
      exact absurd h (by simp [scanAux])
    · rintro ⟨-, i, hi, -⟩
      exact absurd hi (Nat.not_lt_zero i)
  | cons s rest ih =>
    intro prev battery
    by_cases hallow : cfg.allow = true
    · rw [scanAux_cons_allow cfg prev battery s rest hallow]
      by_cases hp : (probe cfg (outerDelta prev s rest) (s :: rest)
          (outerStepEnergy cfg prev battery s rest) cfg.geyserH).canRun = true
      · rw [if_pos hp]
        constructor
        · intro h
          injection h with h1 h2
          subst h1
          subst h2
          refine ⟨hallow, 0, Nat.succ_pos _, ?_, ?_, rfl, (energyThrough_one _ _ _ _ _).symm⟩
          · intro k hk
            exact absurd hk (Nat.not_lt_zero k)
          · rw [probeOKAt_zero]
            exact hp
        · rintro ⟨-, i, hi, hfail, hok, ht, hb⟩
          cases i with
          | zero =>
            rw [energyThrough_one] at hb
            subst ht
            subst hb
            rfl
          | succ i' =>
            have h0 : probeOKAt cfg prev battery (s :: rest) 0 = false :=
              hfail 0 (Nat.succ_pos i')
            rw [probeOKAt_zero] at h0
            rw [hp] at h0
            exact absurd h0 (by simp)
      · rw [if_neg hp]
        have hp' : probeOKAt cfg prev battery (s :: rest) 0 = false := by
          rw [probeOKAt_zero]
          exact Bool.not_eq_true _ ▸ hp
        rw [ih]
        constructor
        · rintro ⟨ha, i, hi, hfail, hok, ht, hb⟩
          refine ⟨ha, i + 1, Nat.succ_lt_succ hi, ?_, ?_, ?_, ?_⟩
          · intro k hk
            cases k with
            | zero => exact hp'
            | succ k' =>
              rw [probeOKAt_succ]
              exact hfail k' (Nat.lt_of_succ_lt_succ hk)
          · rw [probeOKAt_succ]
            exact hok
          · rw [List.get_cons_succ]
            exact ht
          · rw [energyThrough_cons_succ]
            exact hb
        · rintro ⟨ha, i, hi, hfail, hok, ht, hb⟩
          cases i with
          | zero => exact absurd (hp'.symm.trans hok) (by simp)
          | succ i' =>
            rw [probeOKAt_succ] at hok
            rw [List.get_cons_succ] at ht
            rw [energyThrough_cons_succ] at hb
            refine ⟨ha, i', Nat.lt_of_succ_lt_succ hi, ?_, hok, ht, hb⟩
            intro k hk
            have := hfail (k + 1) (Nat.succ_lt_succ hk)
            rw [probeOKAt_succ] at this
            exact this
    · have hf : cfg.allow = false := Bool.not_eq_true _ ▸ hallow
      constructor
      · intro h
        rw [scanAux_allow_false cfg hf] at h
        exact absurd h (by simp)
      · rintro ⟨ha, -⟩
        exact absurd ha hallow

lemma findNext_found_iff_scan (forecast : List Sample)
    (nowDt battAh battV soc rsoc ieff ceff gkw gh hkw : ℚ) (alw : Bool) (t b : ℚ) :
    findNextRunWithLoads forecast nowDt battAh battV soc rsoc ieff ceff gkw gh hkw alw =
        .found t b ↔
      scanAux (mkConfig battAh battV rsoc ieff ceff hkw gkw gh alw) none
        (battery_capacity_kwh battAh battV * soc)
        (futureOf forecast nowDt) = .found t b := by
  simp only [findNextRunWithLoads]
  cases hf : futureOf forecast nowDt with
  | nil =>
    constructor
    · intro h
      exact absurd h (by simp)
    · intro h
      exact absurd h (by simp [scanAux])
  | cons a l => exact Iff.rfl

/-- C3: each Energy Ledger step follows the two-branch algorithm exactly as
the spec states it — surplus stored through the charger efficiency capped at
remaining capacity with `grid_drawn = 0`, otherwise the deficit over the
inverter efficiency discharged up to `max 0 (energy − reserve_floor)` with
`grid_drawn` the uncovered remainder.  The source's `max(0, capacity − energy)`
cap coincides with the spec's `capacity − energy` whenever the energy does not
exceed the capacity. -/
theorem c3_ledger_step_follows_spec (cap res ch inv e p c : ℚ) (h : e ≤ cap) :
    ledgerStep cap res ch inv e p c = specEnergyLedgerStep cap res ch inv e p c := by
  by_cases hb : c ≤ p
  · rw [ledgerStep_charge _ _ _ _ _ _ _ hb]
    simp only [specEnergyLedgerStep, if_pos hb]
    rw [max_eq_right (by linarith : (0:ℚ) ≤ cap - e)]
  · simp only [ledgerStep, specEnergyLedgerStep, if_neg hb]

/-- Witness for C3 at a concrete charging step. -/
theorem c3_witness :
    (5:ℚ) ≤ 10 ∧
      ledgerStep 10 1 (19/20) (9/10) 5 2 3 = specEnergyLedgerStep 10 1 (19/20) (9/10) 5 2 3 :=
  ⟨by norm_num, c3_ledger_step_follows_spec 10 1 (19/20) (9/10) 5 2 3 (by norm_num)⟩

/-- C4: conservation invariant of the Energy Ledger — a step started with
energy in `[0, capacity]` (with non-negative charger efficiency and reserve
floor and positive inverter efficiency) ends with energy in `[0, capacity]`. -/
theorem c4_conservation (cap res ch inv e p c : ℚ)
    (h0 : 0 ≤ e) (h1 : e ≤ cap) (hch : 0 ≤ ch) (hinv : 0 < inv) (hres : 0 ≤ res) :
    0 ≤ (ledgerStep cap res ch inv e p c).energy ∧
      (ledgerStep cap res ch inv e p c).energy ≤ cap := by
  by_cases hb : c ≤ p
  · rw [ledgerStep_charge _ _ _ _ _ _ _ hb]
    have hst : 0 ≤ min ((p - c) * ch) (max 0 (cap - e)) :=
      le_min (mul_nonneg (by linarith) hch) (le_max_left _ _)
    have hcap : min ((p - c) * ch) (max 0 (cap - e)) ≤ cap - e := by
      refine le_trans (min_le_right _ _) ?_
      rw [max_eq_right (by linarith : (0:ℚ) ≤ cap - e)]
    constructor
    · show 0 ≤ e + min ((p - c) * ch) (max 0 (cap - e))
      linarith
    · show e + min ((p - c) * ch) (max 0 (cap - e)) ≤ cap
      linarith
  · simp only [ledgerStep, if_neg hb]
    have hreq : 0 ≤ (c - p) / inv := div_nonneg (by linarith [not_le.mp hb]) (le_of_lt hinv)
    have hd0 : 0 ≤ min ((c - p) / inv) (max 0 (e - res)) := le_min hreq (le_max_left _ _)
    have hde : min ((c - p) / inv) (max 0 (e - res)) ≤ e :=
      le_trans (min_le_right _ _) (max_le h0 (by linarith))
    constructor
    · show 0 ≤ e - min ((c - p) / inv) (max 0 (e - res))
      linarith
    · show e - min ((c - p) / inv) (max 0 (e - res)) ≤ cap
      linarith

/-- Witness for C4 at a concrete discharging step. -/
theorem c4_witness :
    ((0:ℚ) ≤ 5 ∧ (5:ℚ) ≤ 10 ∧ (0:ℚ) ≤ 19/20 ∧ (0:ℚ) < 9/10 ∧ (0:ℚ) ≤ 1) ∧
      (0 ≤ (ledgerStep 10 1 (19/20) (9/10) 5 0 2).energy ∧
        (ledgerStep 10 1 (19/20) (9/10) 5 0 2).energy ≤ 10) :=
  ⟨by norm_num,
    c4_conservation 10 1 (19/20) (9/10) 5 0 2 (by norm_num) (by norm_num) (by norm_num)
      (by norm_num) (by norm_num)⟩

/-- C5 counterexample: the source computes `Power_kW = (irradiance / 1000) ×
panel_kW` with no `system_efficiency` factor, so for the admissible efficiency
1/2 the spec's formula disagrees with the code on irradiance 1000 W/m² and a
5 kW array (5 kW versus 2.5 kW). -/
theorem c5_counterexample :
    ((0:ℚ) < 1/2 ∧ (1/2:ℚ) ≤ 1) ∧
      powerProfile [1000] 5 ≠ specPowerProfile [1000] 5 (1/2) := by
  refine ⟨by norm_num, ?_⟩
  simp only [powerProfile, specPowerProfile, List.map]
  intro h
  have := List.head_eq_of_cons_eq h
  norm_num at this

/-- C5 amended: the derived profile matches the spec formula with the
efficiency factor fixed at 1, has one output per input in order, and is
non-negative whenever the forecast irradiances and the panel size are. -/
theorem c5_power_profile (irrs : List ℚ) (kw : ℚ) (hkw : 0 ≤ kw)
    (hg : ∀ g ∈ irrs, 0 ≤ g) :
    powerProfile irrs kw = specPowerProfile irrs kw 1 ∧
      (powerProfile irrs kw).length = irrs.length ∧
      ∀ p ∈ powerProfile irrs kw, 0 ≤ p := by
  refine ⟨?_, ?_, ?_⟩
  · simp [powerProfile, specPowerProfile]
  · simp [powerProfile]
  · intro p hp
    simp only [powerProfile, List.mem_map] at hp
    obtain ⟨g, hgm, rfl⟩ := hp
    exact mul_nonneg (div_nonneg (hg g hgm) (by norm_num)) hkw

/-- Witness for C5 on a two-sample forecast. -/
theorem c5_witness :
    ((0:ℚ) ≤ 5 ∧ ∀ g ∈ [(1000:ℚ), 0], 0 ≤ g) ∧
      (powerProfile [1000, 0] 5 = specPowerProfile [1000, 0] 5 1 ∧
        (powerProfile [1000, 0] 5).length = [(1000:ℚ), 0].length ∧
        ∀ p ∈ powerProfile [1000, 0] 5, 0 ≤ p) := by
  have hg : ∀ g ∈ [(1000:ℚ), 0], 0 ≤ g := by
    intro g hgm
    simp only [List.mem_cons, List.not_mem_nil, or_false] at hgm
    rcases hgm with rfl | rfl <;> norm_num
  exact ⟨⟨by norm_num, hg⟩, c5_power_profile [1000, 0] 5 (by norm_num) hg⟩

/-- C6 counterexample: for the admissible reserve fraction 199/200 the source's
silently clamped usable fraction `max(0.01, 1 − reserve)` departs from the
spec's `1 − reserve_fraction`, halving the denominator: the code recommends
100 kWh where the spec formula yields 200 kWh. -/
theorem c6_counterexample :
    ((0:ℚ) ≤ 199/200 ∧ (199/200:ℚ) < 1) ∧
      (recommend_battery 1 0 1 1 12 (199/200) 0).recommended_kwh_total = 100 ∧
      (specRecommendCapacity 1 0 1 1 (199/200) 0 12).recommended_total_kwh = 200 ∧
      (recommend_battery 1 0 1 1 12 (199/200) 0).recommended_kwh_total ≠
        (specRecommendCapacity 1 0 1 1 (199/200) 0 12).recommended_total_kwh := by
  norm_num [recommend_battery, specRecommendCapacity]

/-- C6 amended: whenever the reserve fraction is at most 0.99 (so the source's
`max(0.01, ·)` clamp is inactive) the three sizing outputs match the spec's
formulas exactly; in particular the Scenario D inputs give
`required_from_battery = 32` and `recommended_total = 320/9 ≈ 35.56`. -/
theorem c6_sizing_formulas (b e d i v r m : ℚ) (hr : r ≤ 99/100) :
    ((recommend_battery b e d i v r m).required_from_battery_kwh =
        (specRecommendCapacity b e d i r m v).required_from_battery_kwh ∧
      (recommend_battery b e d i v r m).recommended_kwh_total =
        (specRecommendCapacity b e d i r m v).recommended_total_kwh ∧
      (recommend_battery b e d i v r m).recommended_ah =
        (specRecommendCapacity b e d i r m v).recommended_amp_hours) ∧
      (recommend_battery 1 3 6 (9/10) 48 (1/10) (2/10)).required_from_battery_kwh = 32 ∧
      (recommend_battery 1 3 6 (9/10) 48 (1/10) (2/10)).recommended_kwh_total = 320/9 := by
  have hm : max (1/100 : ℚ) (1 - r) = 1 - r := max_eq_right (by linarith)
  refine ⟨⟨?_, ?_, ?_⟩, ?_, ?_⟩
  · simp only [recommend_battery, specRecommendCapacity, hm]
  · simp only [recommend_battery, specRecommendCapacity, hm]
  · simp only [recommend_battery, specRecommendCapacity, ah_from_kwh, hm]
  · norm_num [recommend_battery]
  · norm_num [recommend_battery]

/-- Witness for C6 at the Scenario D inputs. -/
theorem c6_witness :
    (1/10 : ℚ) ≤ 99/100 ∧
      (((recommend_battery 1 3 6 (9/10) 48 (1/10) (2/10)).required_from_battery_kwh =
          (specRecommendCapacity 1 3 6 (9/10) (1/10) (2/10) 48).required_from_battery_kwh ∧
        (recommend_battery 1 3 6 (9/10) 48 (1/10) (2/10)).recommended_kwh_total =
          (specRecommendCapacity 1 3 6 (9/10) (1/10) (2/10) 48).recommended_total_kwh ∧
        (recommend_battery 1 3 6 (9/10) 48 (1/10) (2/10)).recommended_ah =
          (specRecommendCapacity 1 3 6 (9/10) (1/10) (2/10) 48).recommended_amp_hours) ∧
        (recommend_battery 1 3 6 (9/10) 48 (1/10) (2/10)).required_from_battery_kwh = 32 ∧
        (recommend_battery 1 3 6 (9/10) 48 (1/10) (2/10)).recommended_kwh_total = 320/9) :=
  ⟨by norm_num, c6_sizing_formulas 1 3 6 (9/10) 48 (1/10) (2/10) (by norm_num)⟩

/-- C7 counterexample: raising `inverter_eff` from 1/2 to 1 (both admissible,
all other inputs fixed and valid) strictly lowers the recommended capacity
from 2 kWh to 1 kWh, so the recommendation is not monotone in every input. -/
theorem c7_counterexample :
    ((0:ℚ) < 1/2 ∧ (1/2:ℚ) < 1 ∧ (1:ℚ) ≤ 1) ∧
      (recommend_battery 1 0 1 1 12 0 0).recommended_kwh_total <
        (recommend_battery 1 0 1 (1/2) 12 0 0).recommended_kwh_total := by
  norm_num [recommend_battery]

/-- C7 amended: the recommendation is jointly monotone in baseline load, extra
load, duration, safety margin and reserve fraction, and antitone in the
inverter efficiency: any combined increase of the former five with any
decrease of the latter never decreases the recommended capacity. -/
theorem c7_sizing_monotone (b b' e e' d d' i i' m m' r r' v : ℚ)
    (hb0 : 0 ≤ b) (hb : b ≤ b') (he0 : 0 ≤ e) (he : e ≤ e')
    (hd0 : 0 ≤ d) (hd : d ≤ d') (hi0 : 0 < i') (hi : i' ≤ i)
    (hm0 : 0 ≤ m) (hm : m ≤ m') (hr : r ≤ r') :
    (recommend_battery b e d i v r m).recommended_kwh_total ≤
      (recommend_battery b' e' d' i' v r' m').recommended_kwh_total := by
  have hi1 : 0 < i := lt_of_lt_of_le hi0 hi
  have hbe : 0 ≤ (b + e) * d := mul_nonneg (by linarith) hd0
  have hbe' : (b + e) * d ≤ (b' + e') * d' :=
    mul_le_mul (by linarith) hd hd0 (by linarith)
  have hq : (b + e) * d / i ≤ (b' + e') * d' / i' :=
    div_le_div₀ (by linarith) hbe' hi0 hi
  have hq0 : 0 ≤ (b + e) * d / i := div_nonneg hbe (le_of_lt hi1)
  have hreq : (b + e) * d / i * (1 + m) ≤ (b' + e') * d' / i' * (1 + m') :=
    mul_le_mul hq (by linarith) (by linarith) (le_trans hq0 hq)
  have hreq0 : 0 ≤ (b + e) * d / i * (1 + m) := mul_nonneg hq0 (by linarith)
  have hus' : (0:ℚ) < max (1/100) (1 - r') :=
    lt_of_lt_of_le (by norm_num) (le_max_left _ _)
  have hus : max (1/100 : ℚ) (1 - r') ≤ max (1/100 : ℚ) (1 - r) :=
    max_le_max (le_refl _) (by linarith)
  simp only [recommend_battery]
  exact div_le_div₀ (le_trans hreq0 hreq) hreq hus' hus

/-- Witness for C7 amended on a concrete pair of input tuples. -/
theorem c7_witness :
    ((0:ℚ) ≤ 1 ∧ (1:ℚ) ≤ 2 ∧ (0:ℚ) ≤ 0 ∧ (0:ℚ) ≤ 1 ∧ (0:ℚ) ≤ 1 ∧ (1:ℚ) ≤ 2 ∧
      (0:ℚ) < 1/2 ∧ (1/2:ℚ) ≤ 1 ∧ (0:ℚ) ≤ 0 ∧ (0:ℚ) ≤ 1 ∧ (0:ℚ) ≤ 1/2) ∧
      (recommend_battery 1 0 1 1 12 0 0).recommended_kwh_total ≤
        (recommend_battery 2 1 2 (1/2) 12 (1/2) 1).recommended_kwh_total :=
  ⟨by norm_num,
    c7_sizing_monotone 1 2 0 1 1 2 1 (1/2) 0 1 0 (1/2) 12 (by norm_num) (by norm_num)
      (by norm_num) (by norm_num) (by norm_num) (by norm_num) (by norm_num) (by norm_num)
      (by norm_num) (by norm_num) (by norm_num)⟩

/-- C8 counterexample: the source's money-saved figure is
`min(total_solar, used) × tariff` computed from the forecast and panel size
alone — for the profile with mean irradiance 800 W/m², a 5 kW panel and unit
tariff it is 280 (20 per day), while the spec's projector for the 3 kW × 1 h
geyser load says 3 per day; the code's figure does not involve the load at
all. -/
theorem c8_counterexample :
    saved_r [800] 5 1 = 280 ∧ (project_savings 3 1 1).1 = 3 ∧
      saved_r [800] 5 1 / 14 ≠ (project_savings 3 1 1).1 ∧
      saved_r [800] 5 1 ≠ (project_savings 3 1 1).1 := by
  norm_num [saved_r, saved_kwh, total_solar_kwh, daily_solar_kwh, avg_ghi, used_kwh,
    project_savings]

/-- C8 amended: the source's savings figure is exactly proportional to the
tariff — it factors as `saved_kwh × tariff` with `saved_kwh` independent of
the tariff — but it is a function of the forecast and panel size only, not of
the geyser load's power or duration, and no daily/weekly/monthly breakdown is
computed. -/
theorem c8_savings_tariff_proportional (ys : List ℚ) (sys c tariff : ℚ) :
    saved_r ys sys (c * tariff) = c * saved_r ys sys tariff ∧
      saved_r ys sys tariff = saved_kwh ys sys * tariff := by
  constructor
  · simp only [saved_r]
    ring
  · rfl

/-- C9 counterexample: a negative duration violates the stated constraint
`duration_h > 0`, yet `recommend_battery` neither raises nor returns an error —
it silently produces the (meaningless) recommendation −1 kWh. -/
theorem c9_counterexample :
    ¬ ((0:ℚ) < -1) ∧ (recommend_battery 1 0 (-1) 1 12 0 0).recommended_kwh_total = -1 := by
  norm_num [recommend_battery]

/-- C9 amended: the core functions perform no parameter validation and
silently clamp instead of failing fast — `recommend_battery` clamps the usable
fraction to 0.01 for any reserve fraction of at least 0.99 (multiplying the
requirement by 100), and the scheduler clamps any non-positive step duration
to one hour. -/
theorem c9_silent_clamping (b e d i v r m : ℚ) (hr : 99/100 ≤ r)
    (prev : Option ℚ) (s1 s2 : Sample) (rest : List Sample)
    (hts : s2.time - s1.time ≤ 0) :
    (recommend_battery b e d i v r m).usable_fraction = 1/100 ∧
      (recommend_battery b e d i v r m).recommended_kwh_total =
        (recommend_battery b e d i v r m).required_from_battery_kwh * 100 ∧
      outerDelta prev s1 (s2 :: rest) = 1 := by
  have hm : max (1/100 : ℚ) (1 - r) = 1/100 := max_eq_left (by linarith)
  refine ⟨?_, ?_, ?_⟩
  · simp only [recommend_battery, hm]
  · simp only [recommend_battery, hm]
    rw [div_eq_mul_inv]
    norm_num
  · simp only [outerDelta, if_pos hts]

/-- Witness for C9 amended at a reserve fraction of 1 and a non-increasing
pair of timestamps. -/
theorem c9_witness :
    ((99/100 : ℚ) ≤ 1 ∧ (0:ℚ) - 1 ≤ 0) ∧
      ((recommend_battery 1 0 1 1 12 1 0).usable_fraction = 1/100 ∧
        (recommend_battery 1 0 1 1 12 1 0).recommended_kwh_total =
          (recommend_battery 1 0 1 1 12 1 0).required_from_battery_kwh * 100 ∧
        outerDelta none ⟨1, 0⟩ (⟨0, 0⟩ :: []) = 1) :=
  ⟨by norm_num,
    c9_silent_clamping 1 0 1 1 12 1 0 (by norm_num) none ⟨1, 0⟩ ⟨0, 0⟩ []
      (by norm_num)⟩

/-- C10 counterexample: with the geyser flag off and a non-empty forecast that
lies entirely before `now_dt`, the scheduler returns the no-future-forecast
reason, not the insufficient-energy reason — the claim's reason is wrong for
forecasts with no row at or after `now_dt`. -/
theorem c10_counterexample :
    ¬ (findNextRunWithLoads [⟨-1, 5⟩] 0 200 48 (1/2) (1/10) (9/10) (19/20) (7/2) 1 (1/2) false =
        .insufficient) ∧
      findNextRunWithLoads [⟨-1, 5⟩] 0 200 48 (1/2) (1/10) (9/10) (19/20) (7/2) 1 (1/2) false =
        .noFuture ∧
      ([⟨-1, 5⟩] : List Sample) ≠ [] := by
  have hfil : futureOf [⟨-1, 5⟩] 0 = [] := by
    simp only [futureOf, List.filter_cons, List.filter_nil, decide_eq_true_eq]
    norm_num
  have h : findNextRunWithLoads [⟨-1, 5⟩] 0 200 48 (1/2) (1/10) (9/10) (19/20) (7/2) 1 (1/2)
      false = .noFuture := by
    simp only [findNextRunWithLoads, hfil]
  refine ⟨?_, h, by simp⟩
  rw [h]
  simp

/-- C10 amended: whenever the flag `allow_geyser_during_loadshedding` is false
and at least one forecast row is at or after `now_dt`, the scheduler scans the
whole horizon without ever attempting the probe and returns the absent start
with the insufficient-energy reason, whatever the battery state. -/
theorem c10_flag_off_never_schedules (forecast : List Sample)
    (nowDt battAh battV soc rsoc ieff ceff gkw gh hkw : ℚ)
    (h : futureOf forecast nowDt ≠ []) :
    findNextRunWithLoads forecast nowDt battAh battV soc rsoc ieff ceff gkw gh hkw false =
      .insufficient := by
  simp only [findNextRunWithLoads]
  cases hf : futureOf forecast nowDt with
  | nil => exact absurd hf h
  | cons a l => exact scanAux_allow_false _ rfl _ _ _

/-- Witness for C10 amended: a trivially sufficient battery still yields the
insufficient-reason absence when the flag is off. -/
theorem c10_witness :
    futureOf [⟨0, 5⟩] 0 ≠ [] ∧
      findNextRunWithLoads [⟨0, 5⟩] 0 200 48 (1/2) (1/10) (9/10) (19/20) (7/2) 1 (1/2) false =
        .insufficient :=
  have hfil : futureOf [⟨0, 5⟩] 0 = [⟨0, 5⟩] := by
    simp only [futureOf, List.filter_cons, List.filter_nil, decide_eq_true_eq]
    norm_num
  ⟨by rw [hfil]; simp,
    c10_flag_off_never_schedules [⟨0, 5⟩] 0 200 48 (1/2) (1/10) (9/10) (19/20) (7/2) 1 (1/2)
      (by rw [hfil]; simp)⟩

/-- C2 counterexample: on a one-row forecast with zero production, a 10 kWh
battery at 5 kWh, reserve 1 kWh and a 3 kW geyser requested for 2 h, the
scanner returns a start time although the probe stopped after simulating only
1 h (the forecast ended) — with `hoursRemaining = 1` of the requested 2 h never
simulated, the probe did not sustain the full `load.duration_h`; indeed a full
2 h run would need 2 × 3 / 0.9 ≈ 6.67 kWh from only 4 kWh above reserve. -/
theorem c2_counterexample :
    findNextRunWithLoads [⟨0, 0⟩] 0 200 50 (1/2) (1/10) (9/10) (19/20) 3 2 0 true =
        .found 0 5 ∧
      (probe (mkConfig 200 50 (1/10) (9/10) (19/20) 0 3 2 true) 1 [⟨0, 0⟩] 5 2).canRun = true ∧
      (probe (mkConfig 200 50 (1/10) (9/10) (19/20) 0 3 2 true) 1 [⟨0, 0⟩] 5 2).hoursRemaining
        = 1 ∧
      ¬ ((1 : ℚ) ≤ 0) := by
  refine ⟨?_, ?_, ?_, by norm_num⟩
  · norm_num [findNextRunWithLoads, mkConfig, battery_capacity_kwh, scanAux, outerDelta,
      ledgerStep, probe, probeStepHours, futureOf, List.filter]
  · norm_num [probe, probeStepHours, mkConfig, battery_capacity_kwh]
  · norm_num [probe, probeStepHours, mkConfig, battery_capacity_kwh]

/-- C2 amended: the scanner returns a non-absent start exactly when the geyser
flag is on and some candidate row's probe reports `can_run`; the returned
start is the timestamp of the first such row, and the reported
`battery_kwh_at_start` is the ledger energy immediately before that probe
(after the outer household step at that row).  The probe runs until the load
duration is consumed or the forecast ends, whichever is first, and the return
carries no `battery_required_kWh` value. -/
theorem c2_first_feasible_characterization (forecast : List Sample)
    (nowDt battAh battV soc rsoc ieff ceff gkw gh hkw : ℚ) (alw : Bool) (t b : ℚ) :
    findNextRunWithLoads forecast nowDt battAh battV soc rsoc ieff ceff gkw gh hkw alw =
        .found t b ↔
      (alw = true ∧ ∃ i,
        ∃ hi : i < (futureOf forecast nowDt).length,
        (∀ k, k < i →
          probeOKAt (mkConfig battAh battV rsoc ieff ceff hkw gkw gh alw) none
            (battery_capacity_kwh battAh battV * soc)
            (futureOf forecast nowDt) k = false) ∧
        probeOKAt (mkConfig battAh battV rsoc ieff ceff hkw gkw gh alw) none
          (battery_capacity_kwh battAh battV * soc)
          (futureOf forecast nowDt) i = true ∧
        t = ((futureOf forecast nowDt).get ⟨i, hi⟩).time ∧
        b = energyThrough (mkConfig battAh battV rsoc ieff ceff hkw gkw gh alw) none
          (battery_capacity_kwh battAh battV * soc)
          (futureOf forecast nowDt) (i + 1)) := by
  rw [findNext_found_iff_scan, scanAux_found_iff]
  simp only [mkConfig]

/-- C1: reserve respect — whenever the scanner returns a non-absent start
time, re-simulating the successful probe's sub-steps (household plus geyser
consumption against production) with the Energy Ledger step, starting from the
reported `battery_kwh_at_start`, draws no grid energy at any sub-step, and
every sub-step with a deficit ends with the battery at or above the reserve
floor. -/
theorem c1_reserve_respect (forecast : List Sample)
    (nowDt battAh battV soc rsoc ieff ceff gkw gh hkw : ℚ) (alw : Bool) (t b : ℚ)
    (h : findNextRunWithLoads forecast nowDt battAh battV soc rsoc ieff ceff gkw gh hkw alw =
      .found t b) :
    ∃ i, ∃ hi : i < (futureOf forecast nowDt).length,
      t = ((futureOf forecast nowDt).get ⟨i, hi⟩).time ∧
      (probe (mkConfig battAh battV rsoc ieff ceff hkw gkw gh alw)
        (deltaAtIdx none (futureOf forecast nowDt) i)
        ((futureOf forecast nowDt).drop i) b
        (mkConfig battAh battV rsoc ieff ceff hkw gkw gh alw).geyserH).canRun = true ∧
      ∀ x ∈ resim (mkConfig battAh battV rsoc ieff ceff hkw gkw gh alw) b
          (probe (mkConfig battAh battV rsoc ieff ceff hkw gkw gh alw)
            (deltaAtIdx none (futureOf forecast nowDt) i)
            ((futureOf forecast nowDt).drop i) b
            (mkConfig battAh battV rsoc ieff ceff hkw gkw gh alw).geyserH).steps,
        x.2.gridDrawn = 0 ∧
          (x.1.1 < x.1.2 →
            (mkConfig battAh battV rsoc ieff ceff hkw gkw gh alw).reserve ≤ x.2.energy) := by
  rw [findNext_found_iff_scan, scanAux_found_iff] at h
  obtain ⟨-, i, hi, -, hok, ht, hb⟩ := h
  simp only [probeOKAt] at hok
  rw [← hb] at hok
  refine ⟨i, hi, ht, hok, ?_⟩
  intro x hx
  exact probe_resim _ _ _ _ _ _ rfl hok x hx

/-- Witness for C1: a concrete successful schedule (one-hour geyser run served
from the battery alone) whose probe re-simulation is grid-free. -/
theorem c1_witness :
    findNextRunWithLoads [⟨0, 0⟩] 0 200 50 (1/2) (1/10) (9/10) (19/20) 3 1 0 true =
        .found 0 5 ∧
      (∃ i, ∃ hi : i < (futureOf [⟨0, 0⟩] 0).length,
        (0:ℚ) = ((futureOf [⟨0, 0⟩] 0).get ⟨i, hi⟩).time ∧
        (probe (mkConfig 200 50 (1/10) (9/10) (19/20) 0 3 1 true)
          (deltaAtIdx none (futureOf [⟨0, 0⟩] 0) i)
          ((futureOf [⟨0, 0⟩] 0).drop i) 5
          (mkConfig 200 50 (1/10) (9/10) (19/20) 0 3 1 true).geyserH).canRun = true ∧
        ∀ x ∈ resim (mkConfig 200 50 (1/10) (9/10) (19/20) 0 3 1 true) 5
            (probe (mkConfig 200 50 (1/10) (9/10) (19/20) 0 3 1 true)
              (deltaAtIdx none (futureOf [⟨0, 0⟩] 0) i)
              ((futureOf [⟨0, 0⟩] 0).drop i) 5
              (mkConfig 200 50 (1/10) (9/10) (19/20) 0 3 1 true).geyserH).steps,
          x.2.gridDrawn = 0 ∧
            (x.1.1 < x.1.2 →
              (mkConfig 200 50 (1/10) (9/10) (19/20) 0 3 1 true).reserve ≤ x.2.energy)) := by
  have h : findNextRunWithLoads [⟨0, 0⟩] 0 200 50 (1/2) (1/10) (9/10) (19/20) 3 1 0 true =
      .found 0 5 := by
    norm_num [findNextRunWithLoads, mkConfig, battery_capacity_kwh, scanAux, outerDelta,
      ledgerStep, probe, probeStepHours, futureOf, List.filter]
  exact ⟨h, c1_reserve_respect [⟨0, 0⟩] 0 200 50 (1/2) (1/10) (9/10) (19/20) 3 1 0 true 0 5 h⟩

end SolarOpt
